import Mathlib

/-!
# Verification of the policy_monitor crawl–diff–match–notify core

This file shallowly embeds the pure logic of the `policy_monitor`
repository (crawler.py, email_utils.py, request_profiles.py,
proxy_service.py) in Lean 4 and proves properties of it.

Conventions of the embedding:
* Python strings are Lean `String`s; `str.lower()` is modelled by
  ASCII lowering (`Char.toLower`), which is the identity on the CJK
  characters the code works on.
* Library calls with no repository logic inside (BeautifulSoup body-text
  extraction, anchor parsing, `urllib.parse.urljoin`/`urlsplit`,
  `json.dumps`/`json.loads`, the `similarity` model) are passed in as
  function parameters or modelled as data (a `Json` AST), so the theorems
  quantify over their behaviour.
* Float scores are modelled as `Rat` (the code only ever assigns the
  constants 0.0 and 1.0 and forwards similarity outputs unchanged).
* SQLAlchemy sessions are modelled by a pair of database states:
  the committed state and the session's working view
  (`commit` copies view to committed, `rollback` copies committed to view).
-/

namespace PolicyMonitor

/-! ## Python string primitives -/

/-- The whitespace class of Python `str.strip`/`\s` (ASCII part). -/
def isPySpace (c : Char) : Bool :=
  c = ' ' || c = '\t' || c = '\n' || c = '\r' || c = '\x0b' || c = '\x0c'

/-- `str.strip()` on a character list. -/
def pyStripList (l : List Char) : List Char :=
  ((l.dropWhile isPySpace).reverse.dropWhile isPySpace).reverse

/-- Python `str.strip()`. -/
def pyStrip (s : String) : String :=
  ⟨pyStripList s.data⟩

/-- Python `str.lower()` (ASCII model; identity on CJK characters). -/
def pyLower (s : String) : String :=
  ⟨s.data.map Char.toLower⟩

/-- `crawler._is_non_empty_text`: `bool(value and value.strip())`. -/
def isNonEmptyText : Option String → Bool
  | none => false
  | some s => pyStrip s != ""

/-- Python `needle in hay` for strings (substring test). -/
def pySubstr (needle hay : String) : Bool :=
  decide (needle.data <:+: hay.data)

/-! ## C8 — email_utils._resolve_transport_options -/

/-- `email_utils._resolve_transport_options(port, encryption_enabled, ssl_override)`
returning `(use_tls, use_ssl)` i.e. (STARTTLS, implicit SSL). -/
def resolve_transport_options (port : Int) (encryption_enabled : Bool)
    (ssl_override : Option Bool) : Bool × Bool :=
  if !encryption_enabled then (false, false)
  else
    match ssl_override with
    | some true => (false, true)
    | some false => (true, false)
    | none => if port = 465 then (false, true) else (true, false)

/-! ## C1 — cooperative cancellation (spec-modelled) -/

/-- Modelled from the spec: `request_stop_task(task_id) -> bool` is referenced by
`src/tests/test_task_cancellation.py` but absent from `src/crawler.py`.
Per the spec (§6 `requestStop`, §9 running-task registry) the registry maps a
running task id to its cancellation event; signalling sets the event and
returns whether a running task was found. The registry is modelled as an
association list from task id to the event's "is set" flag. -/
def request_stop_task (running : List (Nat × Bool)) (taskId : Nat) :
    List (Nat × Bool) × Bool :=
  match running.lookup taskId with
  | none => (running, false)
  | some _ =>
      (running.map (fun p => (p.1, p.2 || (p.1 == taskId))), true)

/-- Modelled from the spec: `isRunning(taskId) -> bool` (§6), the registry
membership test of `crawler.is_task_running`. -/
def is_task_running (running : List (Nat × Bool)) (taskId : Nat) : Bool :=
  (running.lookup taskId).isSome

/-- Modelled from the spec: a run polls its stop signal between fetch
operations; once the signal is observed the run terminates with a cancelled
terminal status and the partially built snapshot is discarded, leaving the
stored snapshot unchanged (§4.6, §5). Returns the stored snapshot after the
run together with the run's terminal status. -/
def run_observing_stop (stopSet : Bool) (storedSnapshot : Option String)
    (builtSnapshot : String) : Option String × String :=
  if stopSet then (storedSnapshot, "cancelled")
  else (some builtSnapshot, "completed")

/-! ## C5 — crawler.extract_links / crawler.compare_links

`BeautifulSoup.find_all("a", href=True)` is modelled by a parameter
`findAnchors` returning the `href` attribute values of the page's anchor
tags in document order (possibly `""`), and `urllib.parse.urljoin` by a
parameter `urljoin`. -/

/-- `crawler.extract_links(html, base_url)`: for each anchor `href` value,
skip falsy (empty) ones and resolve the rest against `base_url`. -/
def extract_links (findAnchors : String → List String)
    (urljoin : String → String → String) (html base_url : String) :
    List String :=
  (findAnchors html).filterMap fun href =>
    if href = "" then none else some (urljoin base_url href)

/-- `crawler.compare_links(old_html, new_html, base_url)`: the Python `set`
of current links is modelled by `dedup`; a falsy `old_html` (absent or empty)
returns all current links, otherwise the set difference new − old. -/
def compare_links (findAnchors : String → List String)
    (urljoin : String → String → String) (old_html : Option String)
    (new_html base_url : String) : List String :=
  let current := (extract_links findAnchors urljoin new_html base_url).dedup
  match old_html with
  | none => current
  | some old =>
      if old = "" then current
      else
        current.filter fun u =>
          !(extract_links findAnchors urljoin old base_url).contains u

/-! ## C2/C10 — crawler.score_contents -/

/-- `models.WatchContent`, restricted to the fields `score_contents` and the
notification merge read (`id`, `text`). -/
structure WatchContent where
  id : Nat
  text : String
deriving DecidableEq

/-- The delimiter class of `crawler.KEYWORD_SPLIT_PATTERN`
(`[,、，;；、\s]+`): comma, enumeration comma, Chinese comma, the two
semicolons, and whitespace. -/
def isKeywordDelim (c : Char) : Bool :=
  c = ',' || c = '、' || c = '，' || c = ';' || c = '；' || isPySpace c

/-- `re.split(KEYWORD_SPLIT_PATTERN, text)`: the chunks of `text` delimited
by delimiter characters. Chunk multiplicity between adjacent delimiters
differs from `re.split` (which treats a maximal delimiter run as one
separator), but the extra chunks are all empty and `_extract_keywords`
discards empty chunks. -/
def splitParts (l : List Char) : List (List Char) :=
  l.foldr
    (fun c acc =>
      if isKeywordDelim c then [] :: acc
      else
        match acc with
        | [] => [[c]]
        | r :: rs => (c :: r) :: rs)
    []

/-- `crawler._extract_keywords(text)`: split on the delimiter pattern, strip
each part and keep the non-empty ones; if none survive, fall back to the
stripped whole text as a single keyword. -/
def extract_keywords (text : String) : List String :=
  let parts :=
    (((splitParts text.data).map pyStripList).filter (· ≠ [])).map
      fun p => String.mk p
  if parts.isEmpty then [pyStrip text] else parts

/-- The keyword loop of `crawler.score_contents`: some keyword of the
(stripped) phrase text, lowered, is non-empty and occurs in the normalized
title or the normalized summary. -/
def keywordHit (ntitle nsummary text : String) : Bool :=
  (extract_keywords text).any fun kw =>
    pyLower kw != ""
      && (pySubstr (pyLower kw) ntitle || pySubstr (pyLower kw) nsummary)

/-- The score assigned in the first pass of `crawler.score_contents`:
0.0 for empty text, 1.0 on a keyword hit, 0.0 otherwise (to be overwritten
by the similarity fallback for unmatched non-empty phrases). -/
def initialScore (ntitle nsummary : String) (c : WatchContent) : Rat :=
  if pyStrip c.text = "" then 0
  else if keywordHit ntitle nsummary (pyStrip c.text) then 1
  else 0

/-- The `unmatched_contents` list of `crawler.score_contents`: the
`(index, content)` pairs whose stripped text is non-empty and hit no
keyword, in input order. -/
def fallback_candidates (ntitle nsummary : String)
    (contents : List WatchContent) : List (Nat × WatchContent) :=
  contents.enum.filter fun p =>
    pyStrip p.2.text != "" && !keywordHit ntitle nsummary (pyStrip p.2.text)

/-- `crawler.score_contents(article_title, article_summary, contents)`.
The similarity fallback `nlp.similarity` is passed in as `sim`; as in the
source, it receives the normalized summary and the unmatched phrases'
original texts, and its scores are zipped back onto the unmatched indices
(`zip` truncates, as in Python). -/
def score_contents (sim : String → List String → List Rat)
    (article_title article_summary : Option String)
    (contents : List WatchContent) : List (WatchContent × Rat) :=
  if contents.isEmpty then []
  else
    let ntitle := pyLower (article_title.getD "")
    let nsummary := pyLower (article_summary.getD "")
    let results := contents.map fun c => (c, initialScore ntitle nsummary c)
    let unmatched := fallback_candidates ntitle nsummary contents
    let scores := sim nsummary (unmatched.map fun p => p.2.text)
    (unmatched.zip scores).foldl
      (fun res p => res.set p.1.1 (p.1.2, p.2)) results

/-! ## C4/C9 — the single-page change check of crawler.run_task

`crawler.extract_body_text` (BeautifulSoup text flattening) is modelled as
a parameter `ebt`; `run_task` computes `current_main_text = ebt new_html`
before the branch. -/

/-- The single-page branch of `crawler.run_task` (the `has_changed` check):
choose the previous text (recomputing it from the previous main HTML when
it is absent or whitespace-only and the HTML is present), then compare with
the current main text. -/
def single_page_changed (ebt : String → String)
    (previous_main_text previous_main_html : Option String)
    (current_main_text : String) : Bool :=
  let previous_text_to_compare :=
    if !isNonEmptyText previous_main_text then
      match previous_main_html with
      | some h => some (ebt h)
      | none => previous_main_text
    else previous_main_text
  previous_text_to_compare.getD "" != current_main_text

/-! ## C6 — crawler.build_snapshot / crawler.parse_snapshot

`json.dumps`/`json.loads` are modelled by a JSON value AST: `build_snapshot`
produces the Json value that `json.dumps` would serialize, and
`parse_snapshot` consumes the result of `json.loads` on the stored payload:
absent/empty, a string that is not valid JSON (legacy raw HTML), or the
parsed Json value paired with the raw stored string. `summarize_html` is
modelled by the parameter `summarizeTitle` (`parse_snapshot` only uses its
first component), `extract_body_text` by `ebt` as before. -/

inductive Json where
  | null
  | bool (b : Bool)
  | num (n : Int)
  | str (s : String)
  | arr (items : List Json)
  | obj (fields : List (String × Json))

/-- Json object field lookup, `dict.get(key)` (keys are unique in a Python
dict, so first-binding-wins lookup agrees with it). -/
def Json.getKey : Json → String → Option Json
  | .obj fields, key => fields.lookup key
  | _, _ => none

/-- Python `key in dict`. -/
def Json.hasKey (j : Json) (key : String) : Bool :=
  (j.getKey key).isSome

/-- `value if isinstance(value, str) else None`. -/
def Json.asStr : Option Json → Option String
  | some (.str s) => some s
  | _ => none

/-- A subpage mapping carrying `url`, `html`, optional `title` and `text`,
used both as `build_snapshot` input and as a `parse_snapshot` entry. -/
structure SubpageEntry where
  url : String
  html : String
  title : Option String := none
  text : Option String := none
deriving DecidableEq

/-- The serialization of one subpage entry inside `crawler.build_snapshot`:
keep `url`/`html`, add the stripped `title` when non-empty, and a `text`
that falls back to the flattened body text of the entry's HTML. -/
def serializeSubpage (ebt : String → String) (e : SubpageEntry) : Json :=
  let base := [("url", Json.str e.url), ("html", Json.str e.html)]
  let withTitle :=
    if isNonEmptyText e.title then
      base ++ [("title", Json.str (pyStrip (e.title.getD "")))]
    else base
  let normalized_text :=
    match e.text with
    | some t => pyStrip t
    | none => ""
  let normalized_text :=
    if normalized_text = "" then ebt e.html else normalized_text
  if normalized_text = "" then Json.obj withTitle
  else Json.obj (withTitle ++ [("text", Json.str normalized_text)])

/-- `crawler.build_snapshot(main_html, subpages, main_title)` as the version
3 JSON payload. -/
def build_snapshot (ebt : String → String) (main_html : String)
    (subpages : List SubpageEntry) (main_title : Option String) : Json :=
  Json.obj
    [("version", Json.num 3),
     ("main_html", Json.str main_html),
     ("main_title",
       if isNonEmptyText main_title then
         Json.str (pyStrip (main_title.getD ""))
       else Json.null),
     ("main_text", Json.str (ebt main_html)),
     ("subpages", Json.arr (subpages.map (serializeSubpage ebt)))]

/-- The stored snapshot payload as seen by `parse_snapshot`: falsy, a
string `json.loads` rejects (legacy raw HTML), or the parsed Json value
together with the raw stored string. -/
inductive StoredSnapshot where
  | empty
  | raw (s : String)
  | json (rawString : String) (value : Json)

/-- `_add_entry` inside `crawler.parse_snapshot`: skip entries whose url or
html is not a string; backfill an empty/missing title from the entry HTML's
summary title and empty/missing text from its flattened body text, storing
`None` when the backfill is itself empty. -/
def addEntry (ebt summarizeTitle : String → String)
    (url html title text : Option String) : Option SubpageEntry :=
  match url, html with
  | some u, some h =>
      let normalized_title :=
        match title with
        | some t => pyStrip t
        | none => ""
      let normalized_title :=
        if normalized_title = "" then summarizeTitle h else normalized_title
      let normalized_text :=
        match text with
        | some t => pyStrip t
        | none => ""
      let normalized_text :=
        if normalized_text = "" then ebt h else normalized_text
      some
        { url := u, html := h,
          title :=
            if normalized_title = "" then none else some normalized_title,
          text :=
            if normalized_text = "" then none else some normalized_text }
  | _, _ => none

/-- One iteration of the subpages-list loop of `crawler.parse_snapshot`:
only dict items contribute, via their `url`/`html`/`title`/`text` keys. -/
def parseListItem (ebt summarizeTitle : String → String) (item : Json) :
    Option SubpageEntry :=
  match item with
  | .obj fields =>
      addEntry ebt summarizeTitle
        (Json.asStr ((Json.obj fields).getKey "url"))
        (Json.asStr ((Json.obj fields).getKey "html"))
        (Json.asStr ((Json.obj fields).getKey "title"))
        (Json.asStr ((Json.obj fields).getKey "text"))
  | _ => none

/-- One iteration of the subpages-dict loop of `crawler.parse_snapshot`:
the key is the url, the value either an entry dict or the bare html. -/
def parseDictItem (ebt summarizeTitle : String → String)
    (p : String × Json) : Option SubpageEntry :=
  match p.2 with
  | .obj fields =>
      addEntry ebt summarizeTitle (some p.1)
        (Json.asStr ((Json.obj fields).getKey "html"))
        (Json.asStr ((Json.obj fields).getKey "title"))
        (Json.asStr ((Json.obj fields).getKey "text"))
  | .str h => addEntry ebt summarizeTitle (some p.1) (some h) none none
  | _ => addEntry ebt summarizeTitle (some p.1) none none none

/-- The subpage collection loops of `crawler.parse_snapshot`: a dict maps
url to either an entry dict or a bare html string; a list holds entry
dicts; anything else contributes no entries. -/
def parseSubpages (ebt summarizeTitle : String → String) :
    Json → List SubpageEntry
  | .obj kvs => kvs.filterMap (parseDictItem ebt summarizeTitle)
  | .arr items => items.filterMap (parseListItem ebt summarizeTitle)
  | _ => []

/-- The `text` field that `parse_snapshot` reconstructs for a subpage entry
that `build_snapshot` has just serialized: the serialized text (the stripped
input text, falling back to the body text of the entry HTML) is stripped
again on parse, with the same body-text fallback. Derived expression used to
state the round-trip theorem; the claim does not constrain this field. -/
def parsedSubpageText (ebt : String → String) (e : SubpageEntry) :
    Option String :=
  let n :=
    match e.text with
    | some x => pyStrip x
    | none => ""
  let n2 := if n = "" then ebt e.html else n
  let m := if n2 = "" then "" else pyStrip n2
  let m2 := if m = "" then ebt e.html else m
  if m2 = "" then none else some m2

/-- `crawler.parse_snapshot(snapshot)`, returning
`(main_html, entries, main_title, main_text)`. -/
def parse_snapshot (ebt summarizeTitle : String → String) :
    StoredSnapshot →
      Option String × List SubpageEntry × Option String × Option String
  | .empty => (none, [], none, none)
  | .raw s => (some s, [], none, some (ebt s))
  | .json rawString value =>
      match value with
      | .obj fields =>
          if (Json.obj fields).hasKey "main_html"
              || (Json.obj fields).hasKey "subpages" then
            let main_html := Json.asStr ((Json.obj fields).getKey "main_html")
            let main_title :=
              Json.asStr ((Json.obj fields).getKey "main_title")
            let main_text := Json.asStr ((Json.obj fields).getKey "main_text")
            let subpages_data :=
              ((Json.obj fields).getKey "subpages").getD (Json.arr [])
            let entries := parseSubpages ebt summarizeTitle subpages_data
            let main_title :=
              if !isNonEmptyText main_title then
                match main_html with
                | some h => some (summarizeTitle h)
                | none => main_title
              else main_title
            let main_text :=
              if !isNonEmptyText main_text then
                match main_html with
                | some h => some (ebt h)
                | none => main_text
              else main_text
            (main_html, entries, main_title, main_text)
          else
            (some rawString, [], some (summarizeTitle rawString),
              some (ebt rawString))
      | .str s => (some s, [], some (summarizeTitle s), some (ebt s))
      | _ =>
          (some rawString, [], some (summarizeTitle rawString),
            some (ebt rawString))

/-! ## C3 — the exception handler of crawler.run_task (lines 982–1012)

The SQLAlchemy session is a committed database state plus the session's
working view: `session.commit()` copies the view to the committed state,
`session.rollback()` copies the committed state back over the view, and
attribute mutation followed by `session.add` edits the view. The
`datetime.utcnow()` timestamps are modelled as "is set" flags. -/

/-- `models.CrawlLog`: primary key, owning task, status (default
`running`), optional message, and whether `run_finished_at` is set. -/
structure LogRec where
  id : Nat
  taskId : Nat
  status : String := "running"
  message : Option String := none
  finished : Bool := false
deriving DecidableEq

/-- `models.MonitorTask`, restricted to the run bookkeeping fields. -/
structure TaskRec where
  id : Nat
  lastStatus : Option String := none
  lastRunSet : Bool := false
deriving DecidableEq

/-- `models.CrawlLogDetail`, restricted to log id, message and level. -/
structure DetailRec where
  logId : Nat
  message : String
  level : String
deriving DecidableEq

/-- The tables the failure path touches, plus the autoincrement cursor for
crawl log primary keys. -/
structure Db where
  logs : List LogRec
  tasks : List TaskRec
  details : List DetailRec
  nextLogId : Nat
deriving DecidableEq

/-- A SQLAlchemy session: committed state and working view. -/
structure Sess where
  committed : Db
  view : Db
deriving DecidableEq

/-- `session.commit()`. -/
def Sess.commit (s : Sess) : Sess :=
  ⟨s.view, s.view⟩

/-- `session.rollback()`. -/
def Sess.rollback (s : Sess) : Sess :=
  ⟨s.committed, s.committed⟩

/-- `session.get(CrawlLog, i)` against a database state. -/
def Db.getLog (db : Db) (i : Nat) : Option LogRec :=
  db.logs.find? fun l => l.id == i

/-- `session.get(MonitorTask, i)` against a database state. -/
def Db.getTask (db : Db) (i : Nat) : Option TaskRec :=
  db.tasks.find? fun t => t.id == i

/-- Mutating the attributes of the crawl log with primary key `i`. -/
def Db.updateLog (db : Db) (i : Nat) (f : LogRec → LogRec) : Db :=
  { db with logs := db.logs.map fun l => if l.id = i then f l else l }

/-- Mutating the attributes of the monitor task with primary key `i`. -/
def Db.updateTask (db : Db) (i : Nat) (f : TaskRec → TaskRec) : Db :=
  { db with tasks := db.tasks.map fun t => if t.id = i then f t else t }

/-- `CrawlLog(task_id=...)` added and committed: the new row takes the next
primary key and the default `running` status. Returns the session and the
new id. -/
def Sess.createLog (s : Sess) (taskId : Nat) : Sess × Nat :=
  let newLog : LogRec := { id := s.view.nextLogId, taskId := taskId }
  (Sess.commit
      ⟨s.committed,
        { s.view with logs := s.view.logs ++ [newLog],
                      nextLogId := s.view.nextLogId + 1 }⟩,
    newLog.id)

/-- `add_detail` of `crawler.run_task`: insert a CrawlLogDetail row and
commit. (Its `log_entry_id is None` guard never fires on the failure path,
which establishes a log id first.) -/
def Sess.addDetail (s : Sess) (logId : Nat) (message level : String) :
    Sess :=
  Sess.commit
    ⟨s.committed,
      { s.view with details := s.view.details ++ [⟨logId, message, level⟩] }⟩

/-- The failure path of `crawler.run_task` after a log id is established:
record the two failure details, mark the task failed with a fresh last-run
timestamp, re-fetch the log row (re-creating it if it vanished), mark it
failed and finished with the exception text as message, and commit. -/
def runTaskFailureTail (s2 : Sess) (taskId logId1 : Nat)
    (excText : String) : Sess :=
  let s3 := s2.addDetail logId1 "任务执行失败，已回滚未完成操作" "error"
  let s4 := s3.addDetail logId1 ("错误信息：" ++ excText) "error"
  let s5 :=
    match s4.view.getTask taskId with
    | some _ =>
        { s4 with
            view := s4.view.updateTask taskId fun t =>
              { t with lastStatus := some "failed", lastRunSet := true } }
    | none => s4
  let p6 :=
    match s5.view.getLog logId1 with
    | none => s5.createLog taskId
    | some _ => (s5, logId1)
  let s7 :=
    { p6.1 with
        view := p6.1.view.updateLog p6.2 fun l =>
          { l with status := "failed", finished := true,
                   message := some excText } }
  s7.commit

/-- The `except Exception` block of `crawler.run_task`: roll back the
session, create a crawl log row if none was created yet, and run the
failure tail. -/
def run_task_failure_handler (s0 : Sess) (taskId : Nat)
    (logEntryId : Option Nat) (excText : String) : Sess :=
  let s1 := s0.rollback
  match logEntryId with
  | none =>
      let p := s1.createLog taskId
      runTaskFailureTail p.1 taskId p.2 excText
  | some i => runTaskFailureTail s1 taskId i excText

/-! ## C7 — request_profiles.py, proxy_service.py and the plain-HTTP fetch

`urllib.parse.urlsplit` is modelled by passing the split URL parts
explicitly; `str.format` on a Referer template is modelled by interpreting
a token list. The `random.SystemRandom().choice` is modelled by an
explicit choice index, and the issued `requests.get` call by a record of
its url, headers and proxies argument. -/

/-- The parts of a URL produced by `urllib.parse.urlsplit` that
`RequestProfile.build_headers` reads. -/
structure UrlParts where
  scheme : String
  netloc : String
  hostname : String
  path : String
deriving DecidableEq

/-- A placeholder of a Referer template. -/
inductive RefField where
  | scheme
  | netloc
  | hostname
  | url
  | path
deriving DecidableEq

/-- One piece of a Referer template: literal text or a placeholder. -/
inductive RefTok where
  | lit (s : String)
  | field (f : RefField)
deriving DecidableEq

/-- `referer_template.format(**mapping)` where the mapping sends scheme,
netloc, hostname (falling back to netloc), url and path (falling back to
`/`) to the values from `urlsplit(url)`. -/
def formatTemplate (toks : List RefTok) (url : String) (parts : UrlParts) :
    String :=
  String.join (toks.map fun tok =>
    match tok with
    | .lit s => s
    | .field .scheme => parts.scheme
    | .field .netloc => parts.netloc
    | .field .hostname =>
        if parts.hostname = "" then parts.netloc else parts.hostname
    | .field .url => url
    | .field .path => if parts.path = "" then "/" else parts.path)

/-- The header set carried by a request: the three fixed headers plus an
optional Referer (omitted when the formatted template is empty). -/
structure Headers where
  userAgent : String
  acceptLanguage : String
  accept : String
  referer : Option String
deriving DecidableEq

/-- `request_profiles.RequestProfile`. -/
structure RequestProfile where
  user_agent : String
  referer_template : List RefTok
  accept_language : String
  accept : String
deriving DecidableEq

/-- `RequestProfile.build_headers(url)`. -/
def RequestProfile.build_headers (p : RequestProfile) (url : String)
    (parts : UrlParts) : Headers :=
  let referer := formatTemplate p.referer_template url parts
  { userAgent := p.user_agent, acceptLanguage := p.accept_language,
    accept := p.accept,
    referer := if referer = "" then none else some referer }

/-- `request_profiles._desktop_chrome`. -/
def desktop_chrome (version : Nat) (windows_version : String) : String :=
  "Mozilla/5.0 (Windows NT " ++ windows_version
    ++ "; Win64; x64) AppleWebKit/537.36 (KHTML, like Gecko) Chrome/"
    ++ toString version ++ ".0.0.0 Safari/537.36"

/-- `request_profiles._mac_chrome`. -/
def mac_chrome (version : Nat) (os_version : String) : String :=
  "Mozilla/5.0 (Macintosh; Intel Mac OS X " ++ os_version
    ++ ") AppleWebKit/537.36 (KHTML, like Gecko) Chrome/"
    ++ toString version ++ ".0.0.0 Safari/537.36"

/-- `request_profiles._firefox`. -/
def firefox_ua (version : Nat) (platform : String) : String :=
  "Mozilla/5.0 (" ++ platform ++ "; rv:" ++ toString version
    ++ ".0) Gecko/20100101 Firefox/" ++ toString version ++ ".0"

/-- `request_profiles._edge`. -/
def edge_ua (version : Nat) (windows_version : String) : String :=
  "Mozilla/5.0 (Windows NT " ++ windows_version
    ++ "; Win64; x64) AppleWebKit/537.36 (KHTML, like Gecko) Chrome/"
    ++ toString version ++ ".0.0.0 Safari/537.36 Edg/"
    ++ toString version ++ ".0.0.0"

/-- `request_profiles._safari`. -/
def safari_ua (version : Nat) (os_version : String) : String :=
  "Mozilla/5.0 (Macintosh; Intel Mac OS X " ++ os_version
    ++ ") AppleWebKit/605.1.15 (KHTML, like Gecko) Version/"
    ++ toString version ++ ".0 Safari/605.1.15"

/-- `request_profiles._ios_safari`. -/
def ios_safari (version : Nat) (device os_version : String) : String :=
  "Mozilla/5.0 (" ++ device ++ "; CPU iPhone OS " ++ os_version
    ++ " like Mac OS X) AppleWebKit/605.1.15 (KHTML, like Gecko) Version/"
    ++ toString version ++ ".0 Mobile/15E148 Safari/604.1"

/-- `request_profiles._android_chrome`. -/
def android_chrome (version : Nat) (android_version device : String) :
    String :=
  "Mozilla/5.0 (Linux; Android " ++ android_version ++ "; " ++ device
    ++ ") AppleWebKit/537.36 (KHTML, like Gecko) Chrome/"
    ++ toString version ++ ".0.0.0 Mobile Safari/537.36"

def WINDOWS_VERSIONS : List String := ["10.0", "11.0", "6.3", "6.1"]

def MAC_OS_VERSIONS : List String :=
  ["10_15_7", "11_6_8", "12_6_7", "13_5_2", "14_0"]

def FIREFOX_PLATFORMS : List String :=
  ["Windows NT 10.0; Win64; x64", "Windows NT 6.1; Win64; x64",
   "Macintosh; Intel Mac OS X 10.15", "X11; Ubuntu; Linux x86_64"]

def EDGE_WINDOWS_VERSIONS : List String := ["10.0", "11.0"]

def IOS_DEVICES : List String :=
  ["iPhone", "iPhone; CPU iPhone OS", "iPad"]

def IOS_OS_VERSIONS : List String := ["14_7", "15_6", "16_5", "17_3"]

def ANDROID_VERSIONS : List String := ["10", "11", "12", "13", "14"]

def ANDROID_DEVICES : List String :=
  ["Pixel 5", "Pixel 7", "Mi 11", "Mate 40", "SM-G998B", "OnePlus 9",
   "PCLM10"]

/-- `request_profiles._REFERER_TEMPLATES`, as placeholder token lists. -/
def REFERER_TEMPLATES : List (List RefTok) :=
  [[.field .scheme, .lit "://", .field .netloc, .lit "/"],
   [.field .scheme, .lit "://", .field .netloc, .field .path],
   [.lit "https://www.google.com/search?q=", .field .netloc],
   [.lit "https://www.google.com.hk/search?q=", .field .netloc],
   [.lit "https://www.baidu.com/s?wd=", .field .netloc],
   [.lit "https://cn.bing.com/search?q=", .field .netloc],
   [.lit "https://search.yahoo.com/search?p=", .field .netloc],
   [.lit "https://duckduckgo.com/?q=", .field .netloc],
   [.lit "https://www.sogou.com/web?query=", .field .netloc],
   [.lit "https://m.baidu.com/s?wd=", .field .netloc],
   [.lit "https://www.sm.cn/s?q=", .field .netloc],
   [.lit "https://m.sm.cn/s?q=", .field .netloc],
   [.lit "https://so.com/s?q=", .field .netloc],
   [.lit "https://www.ecosia.org/search?q=", .field .netloc],
   [.lit "https://yandex.com/search/?text=", .field .netloc],
   [.lit "https://www.zhihu.com/search?type=content&q=", .field .netloc],
   [.lit "https://weixin.sogou.com/weixin?type=2&query=", .field .netloc],
   [.lit "https://www.qwant.com/?q=", .field .netloc],
   [.lit "https://www.bilibili.com/search?keyword=", .field .netloc],
   [.lit "https://m.sogou.com/web/searchList.jsp?keyword=",
    .field .netloc]]

def ACCEPT_LANGUAGES : List String :=
  ["zh-CN,zh;q=0.9,en;q=0.7", "zh-CN,zh;q=0.8,en-US;q=0.6",
   "en-US,en;q=0.9,zh-CN;q=0.6", "zh-TW,zh;q=0.8,en;q=0.5",
   "en-GB,en;q=0.9,zh-CN;q=0.4", "ja-JP,ja;q=0.9,en-US;q=0.6",
   "ko-KR,ko;q=0.9,en-US;q=0.6", "de-DE,de;q=0.9,en-US;q=0.6",
   "fr-FR,fr;q=0.9,en;q=0.6", "es-ES,es;q=0.9,en;q=0.5"]

def ACCEPT_HEADERS : List String :=
  ["text/html,application/xhtml+xml,application/xml;q=0.9,image/webp,image/apng,*/*;q=0.8",
   "text/html,application/json;q=0.9,*/*;q=0.8",
   "text/html,application/xhtml+xml;q=0.9,*/*;q=0.7",
   "text/html,application/xml;q=0.9,image/avif,image/webp,*/*;q=0.8"]

/-- `request_profiles._iter_user_agents`: the seven user-agent generators
with their version ranges and modular platform selection. -/
def iter_user_agents : List String :=
  ((List.range 30).map fun idx =>
      desktop_chrome (114 + idx) (WINDOWS_VERSIONS.getD (idx % 4) ""))
  ++ ((List.range 20).map fun idx =>
      mac_chrome (96 + idx) (MAC_OS_VERSIONS.getD (idx % 5) ""))
  ++ ((List.range 20).map fun idx =>
      firefox_ua (88 + idx) (FIREFOX_PLATFORMS.getD (idx % 4) ""))
  ++ ((List.range 18).map fun idx =>
      edge_ua (100 + idx) (EDGE_WINDOWS_VERSIONS.getD (idx % 2) ""))
  ++ ((List.range 16).map fun idx =>
      safari_ua (14 + idx) (MAC_OS_VERSIONS.getD (idx % 5) ""))
  ++ ((List.range 12).map fun idx =>
      ios_safari (14 + idx) (IOS_DEVICES.getD (idx % 3) "")
        (IOS_OS_VERSIONS.getD (idx % 4) ""))
  ++ ((List.range 26).map fun idx =>
      android_chrome (96 + idx) (ANDROID_VERSIONS.getD (idx % 5) "")
        (ANDROID_DEVICES.getD (idx % 7) ""))

/-- `request_profiles._build_profiles`: pair the first 100 user agents with
modularly selected Referer template, Accept-Language and Accept. -/
def build_profiles : List RequestProfile :=
  (iter_user_agents.take 100).enum.map fun p =>
    { user_agent := p.2,
      referer_template := REFERER_TEMPLATES.getD (p.1 % 20) [],
      accept_language := ACCEPT_LANGUAGES.getD (p.1 % 10) "",
      accept := ACCEPT_HEADERS.getD (p.1 % 4) "" }

/-- `request_profiles._REQUEST_PROFILES`. -/
def REQUEST_PROFILES : List RequestProfile := build_profiles

/-- `request_profiles.get_profile_headers(url)`, the random choice made an
explicit index into the pool. -/
def get_profile_headers (choice : Nat) (url : String) (parts : UrlParts) :
    Headers :=
  (REQUEST_PROFILES.getD (choice % REQUEST_PROFILES.length)
      ⟨"", [], "", ""⟩).build_headers url parts

/-- `crawler.DEFAULT_REQUEST_HEADERS` (a fixed Chrome 124 profile with no
Referer). -/
def DEFAULT_REQUEST_HEADERS : Headers :=
  { userAgent :=
      "Mozilla/5.0 (Windows NT 10.0; Win64; x64) AppleWebKit/537.36 (KHTML, like Gecko) Chrome/124.0.0.0 Safari/537.36",
    acceptLanguage := "zh-CN,zh;q=0.9,en;q=0.8",
    accept := "text/html,application/xhtml+xml,application/xml;q=0.9,*/*;q=0.8",
    referer := none }

/-- The observable shape of the HTTP request issued by
`crawler._fetch_html_with_requests`: url, headers, and the `proxies`
argument (absent in the source call). -/
structure HttpRequest where
  url : String
  headers : Headers
  proxy : Option (List (String × String))
deriving DecidableEq

/-- `requests.get(url, timeout=20, headers=DEFAULT_REQUEST_HEADERS)` as
issued by `crawler._fetch_html_with_requests`: fixed default headers and no
`proxies` argument. -/
def fetch_html_with_requests_request (url : String) : HttpRequest :=
  { url := url, headers := DEFAULT_REQUEST_HEADERS, proxy := none }

/-- The rotation state of `proxy_service.ProxyConfigService`: the loaded
active proxy mappings and the round-robin cursor. -/
structure ProxyState where
  proxies : List (List (String × String))
  index : Nat
deriving DecidableEq

/-- `ProxyConfigService.get_next_proxy`: `None` on an empty pool, otherwise
the proxy under the cursor, advancing the cursor modulo the pool size. -/
def get_next_proxy (st : ProxyState) :
    Option (List (String × String)) × ProxyState :=
  if st.proxies.isEmpty then (none, st)
  else
    (some (st.proxies.getD st.index []),
      { st with index := (st.index + 1) % st.proxies.length })

end PolicyMonitor

namespace PolicyMonitor

/-! ## Theorems -/

/-- C8: transport selection — encryption disabled yields neither STARTTLS nor
implicit SSL; with encryption enabled and no override, port 465 selects
implicit SSL only, any other port selects STARTTLS only; an explicit SSL
override takes precedence over the port rule. -/
theorem resolve_transport_options_spec :
    (∀ port ssl_override,
        resolve_transport_options port false ssl_override = (false, false))
    ∧ (∀ port : Int, port = 465 →
        resolve_transport_options port true none = (false, true))
    ∧ (∀ port : Int, port ≠ 465 →
        resolve_transport_options port true none = (true, false))
    ∧ (∀ port : Int, ∀ b : Bool,
        resolve_transport_options port true (some b) =
          (if b then (false, true) else (true, false))) := by
  refine ⟨fun port o => rfl, fun port h => by simp [resolve_transport_options, h],
    fun port h => by simp [resolve_transport_options, h], fun port b => ?_⟩
  cases b <;> simp [resolve_transport_options]

/-- C8 witness: concrete evaluations at ports 465, 587 and with overrides. -/
theorem resolve_transport_options_spec_witness :
    resolve_transport_options 25 false none = (false, false)
    ∧ resolve_transport_options 465 true none = (false, true)
    ∧ resolve_transport_options 587 true none = (true, false)
    ∧ resolve_transport_options 465 true (some false) = (true, false) :=
  ⟨resolve_transport_options_spec.1 25 none,
    resolve_transport_options_spec.2.1 465 rfl,
    resolve_transport_options_spec.2.2.1 587 (by decide),
    resolve_transport_options_spec.2.2.2 465 false⟩

theorem lookup_map_snd (g : Nat → Bool → Bool) (l : List (Nat × Bool))
    (a : Nat) :
    (l.map (fun p => (p.1, g p.1 p.2))).lookup a = (l.lookup a).map (g a) := by
  induction l with
  | nil => rfl
  | cons hd tl ih =>
      obtain ⟨k, v⟩ := hd
      simp only [List.map_cons, List.lookup]
      cases hak : a == k with
      | false => exact ih
      | true =>
          have : a = k := by simpa using hak
          simp [Option.map, this]

theorem lookup_map_set_true (running : List (Nat × Bool)) (taskId : Nat)
    (b : Bool) (h : running.lookup taskId = some b) :
    (running.map (fun p => (p.1, p.2 || (p.1 == taskId)))).lookup
        taskId = some true := by
  have := lookup_map_snd (fun k v => v || (k == taskId)) running taskId
  rw [this, h]
  simp

/-- C1 (spec-modelled): `request_stop_task` returns `true` iff the task id is
registered as running; when it returns `true` the task's stop event is set;
and a run that observes the stop signal terminates with a cancelled status
without persisting a new snapshot. -/
theorem request_stop_task_spec (running : List (Nat × Bool)) (taskId : Nat) :
    ((request_stop_task running taskId).2 = true
        ↔ is_task_running running taskId = true)
    ∧ ((request_stop_task running taskId).2 = true →
        (request_stop_task running taskId).1.lookup taskId = some true)
    ∧ (∀ storedSnapshot builtSnapshot,
        run_observing_stop true storedSnapshot builtSnapshot =
          (storedSnapshot, "cancelled")) := by
  refine ⟨?_, ?_, fun s b => rfl⟩
  · unfold request_stop_task is_task_running
    cases h : running.lookup taskId <;> simp [h]
  · intro h2
    unfold request_stop_task at h2 ⊢
    cases h : running.lookup taskId with
    | none => simp [h] at h2
    | some b => simpa [h] using lookup_map_set_true running taskId b h

/-- C1 witness: a registry with task 5 running (event unset); stopping it
returns `true` and sets the event, and the stopped run keeps the old
snapshot with a cancelled status. -/
theorem request_stop_task_spec_witness :
    ((request_stop_task [(5, false)] 5).2 = true
        ↔ is_task_running [(5, false)] 5 = true)
    ∧ (request_stop_task [(5, false)] 5).1.lookup 5 = some true
    ∧ run_observing_stop true (some "old") "new" = (some "old", "cancelled") :=
  ⟨(request_stop_task_spec [(5, false)] 5).1,
    (request_stop_task_spec [(5, false)] 5).2.1 (by decide),
    (request_stop_task_spec [(5, false)] 5).2.2 (some "old") "new"⟩

/-- C5: `compare_links` returns, as a set, exactly the resolved anchor
targets of the new page that are absent from the resolved anchor targets of
the old page; with no prior snapshot it returns all of the new page's
resolved anchor URLs. -/
theorem compare_links_spec (findAnchors : String → List String)
    (urljoin : String → String → String) (new_html base_url : String) :
    (∀ u, u ∈ compare_links findAnchors urljoin none new_html base_url
        ↔ u ∈ extract_links findAnchors urljoin new_html base_url)
    ∧ (∀ old_html, old_html ≠ "" →
        ∀ u, u ∈ compare_links findAnchors urljoin (some old_html) new_html base_url
          ↔ (u ∈ extract_links findAnchors urljoin new_html base_url
              ∧ u ∉ extract_links findAnchors urljoin old_html base_url)) := by
  constructor
  · intro u
    simp [compare_links]
  · intro old_html hold u
    simp [compare_links, hold, List.mem_filter, and_comm]

theorem mk_eq_empty_iff (l : List Char) : String.mk l = "" ↔ l = [] := by
  constructor
  · intro h
    exact congrArg String.data h
  · intro h
    subst h
    rfl

theorem string_eq_empty_iff (s : String) : s = "" ↔ s.data = [] := by
  constructor
  · intro h
    exact congrArg String.data h
  · intro h
    cases s
    exact (mk_eq_empty_iff _).mpr h

theorem pyLower_eq_empty_iff (s : String) : pyLower s = "" ↔ s = "" := by
  rw [pyLower, mk_eq_empty_iff, List.map_eq_nil_iff, ← string_eq_empty_iff]

theorem dropWhile_head?_not (p : Char → Bool) (l : List Char) (a : Char)
    (h : (l.dropWhile p).head? = some a) : p a = false := by
  induction l with
  | nil => simp at h
  | cons x xs ih =>
      cases hx : p x with
      | true =>
          rw [List.dropWhile_cons_of_pos hx] at h
          exact ih h
      | false =>
          rw [List.dropWhile_cons_of_neg (by simp [hx])] at h
          simp only [List.head?_cons, Option.some.injEq] at h
          subst h
          exact hx

theorem dropWhile_eq_self_of_head? (p : Char → Bool) (l : List Char)
    (h : ∀ a, l.head? = some a → p a = false) : l.dropWhile p = l := by
  cases l with
  | nil => rfl
  | cons x xs =>
      rw [List.dropWhile_cons_of_neg (by simp [h x rfl])]

theorem pyStripList_head?_not (l : List Char) (a : Char)
    (h : (pyStripList l).head? = some a) : isPySpace a = false := by
  unfold pyStripList at h
  rw [List.head?_reverse] at h
  obtain ⟨t, ht⟩ := List.dropWhile_suffix
    (l := (l.dropWhile isPySpace).reverse) (p := isPySpace)
  have hne : (l.dropWhile isPySpace).reverse.dropWhile isPySpace ≠ [] := by
    intro hnil
    rw [hnil] at h
    simp at h
  have h2 : (t ++ (l.dropWhile isPySpace).reverse.dropWhile
      isPySpace).getLast? = some a := by
    rw [List.getLast?_append_of_ne_nil t hne]
    exact h
  rw [ht, List.getLast?_reverse] at h2
  exact dropWhile_head?_not isPySpace _ a h2

theorem pyStripList_getLast?_not (l : List Char) (a : Char)
    (h : (pyStripList l).getLast? = some a) : isPySpace a = false := by
  unfold pyStripList at h
  rw [List.getLast?_reverse] at h
  exact dropWhile_head?_not isPySpace _ a h

theorem pyStripList_idem (l : List Char) :
    pyStripList (pyStripList l) = pyStripList l := by
  have h1 : (pyStripList l).dropWhile isPySpace = pyStripList l :=
    dropWhile_eq_self_of_head? _ _ (fun a ha => pyStripList_head?_not l a ha)
  have h2 : (pyStripList l).reverse.dropWhile isPySpace
      = (pyStripList l).reverse :=
    dropWhile_eq_self_of_head? _ _ (fun a ha =>
      pyStripList_getLast?_not l a (by rwa [List.head?_reverse] at ha))
  show ((((pyStripList l).dropWhile isPySpace).reverse.dropWhile
      isPySpace)).reverse = pyStripList l
  rw [h1, h2, List.reverse_reverse]

theorem pyStrip_idem (s : String) : pyStrip (pyStrip s) = pyStrip s := by
  show String.mk (pyStripList (pyStripList s.data)) = _
  rw [pyStripList_idem]
  rfl

theorem extract_keywords_mem_ne_empty (s : String) (hs : pyStrip s = s)
    (hne : s ≠ "") : ∀ kw ∈ extract_keywords s, kw ≠ "" := by
  intro kw hkw
  unfold extract_keywords at hkw
  by_cases hp :
      ((((splitParts s.data).map pyStripList).filter (· ≠ [])).map
        (fun p => String.mk p)).isEmpty
  · rw [if_pos hp] at hkw
    simp only [List.mem_singleton] at hkw
    subst hkw
    rw [hs]
    exact hne
  · rw [if_neg hp] at hkw
    obtain ⟨p, hpmem, hpeq⟩ := List.mem_map.mp hkw
    have hpne : p ≠ [] := by
      have := (List.mem_filter.mp hpmem).2
      simpa using this
    intro hcontra
    subst hpeq
    exact hpne ((mk_eq_empty_iff p).mp hcontra)

/-- C5 witness: a concrete anchor extractor where the new page has anchors
`p, q` and the old page anchor `q`; the link `Bp` is reported as new because
it appears only on the new page. -/
theorem compare_links_spec_witness :
    ("N" : String) ≠ ""
    ∧ (("Bp" ∈ compare_links
          (fun h => if h = "N" then ["p", "q"] else ["q"])
          (fun b h => b ++ h) (some "O") "N" "B")
        ↔ (("Bp" ∈ extract_links (fun h => if h = "N" then ["p", "q"] else ["q"])
              (fun b h => b ++ h) "N" "B")
            ∧ ("Bp" ∉ extract_links (fun h => if h = "N" then ["p", "q"] else ["q"])
              (fun b h => b ++ h) "O" "B"))) :=
  ⟨by decide,
    (compare_links_spec (fun h => if h = "N" then ["p", "q"] else ["q"])
      (fun b h => b ++ h) "N" "B").2 "O" (by decide) "Bp"⟩

theorem set_getElem?_self {α : Type} (l : List α) (i : Nat) (a : α)
    (h : l[i]? = some a) : l.set i a = l := by
  apply List.ext_getElem?
  intro j
  by_cases hj : i = j
  · subst hj
    rw [List.getElem?_set_self', h]
    rfl
  · exact List.getElem?_set_ne hj

theorem foldl_set_getElem?_of_ne (updates : List ((Nat × WatchContent) × Rat))
    (res : List (WatchContent × Rat)) (i : Nat)
    (h : ∀ u ∈ updates, u.1.1 ≠ i) :
    (updates.foldl (fun r u => r.set u.1.1 (u.1.2, u.2)) res)[i]? = res[i]? := by
  induction updates generalizing res with
  | nil => rfl
  | cons u us ih =>
      rw [List.foldl_cons,
        ih _ (fun v hv => h v (List.mem_cons_of_mem u hv))]
      exact List.getElem?_set_ne (h u (List.mem_cons_self u us))

theorem foldl_set_map_fst (updates : List ((Nat × WatchContent) × Rat))
    (contents : List WatchContent) (res : List (WatchContent × Rat))
    (hres : res.map Prod.fst = contents)
    (h : ∀ u ∈ updates, contents[u.1.1]? = some u.1.2) :
    (updates.foldl (fun r u => r.set u.1.1 (u.1.2, u.2)) res).map Prod.fst
      = contents := by
  induction updates generalizing res with
  | nil => exact hres
  | cons u us ih =>
      rw [List.foldl_cons]
      apply ih
      · rw [List.map_set, hres]
        exact set_getElem?_self _ _ _ (h u (List.mem_cons_self u us))
      · exact fun v hv => h v (List.mem_cons_of_mem u hv)

theorem mem_fallback_candidates (ntitle nsummary : String)
    (contents : List WatchContent) (p : Nat × WatchContent)
    (hp : p ∈ fallback_candidates ntitle nsummary contents) :
    contents[p.1]? = some p.2 ∧ pyStrip p.2.text ≠ ""
      ∧ keywordHit ntitle nsummary (pyStrip p.2.text) = false := by
  unfold fallback_candidates at hp
  obtain ⟨hmem, hpred⟩ := List.mem_filter.mp hp
  obtain ⟨i, c⟩ := p
  simp only [Bool.and_eq_true, bne_iff_ne, ne_eq, Bool.not_eq_true'] at hpred
  exact ⟨List.mk_mem_enum_iff_getElem?.mp hmem, hpred.1, hpred.2⟩

/-- C2: if some keyword obtained by splitting a phrase's non-empty stripped
text on the delimiter set is, case-insensitively, a substring of the
normalized title or summary, `score_contents` pairs that phrase with the
score exactly 1, for every similarity fallback `sim`. -/
theorem score_contents_exact_match (sim : String → List String → List Rat)
    (article_title article_summary : Option String)
    (contents : List WatchContent) (i : Nat) (c : WatchContent)
    (hc : contents[i]? = some c) (hne : pyStrip c.text ≠ "")
    (hkw : ∃ kw ∈ extract_keywords (pyStrip c.text),
        pySubstr (pyLower kw) (pyLower (article_title.getD "")) = true
        ∨ pySubstr (pyLower kw) (pyLower (article_summary.getD "")) = true) :
    (score_contents sim article_title article_summary contents)[i]?
      = some (c, 1) := by
  have hhit : keywordHit (pyLower (article_title.getD ""))
      (pyLower (article_summary.getD "")) (pyStrip c.text) = true := by
    obtain ⟨kw, hkwmem, hkwsub⟩ := hkw
    apply List.any_eq_true.mpr
    refine ⟨kw, hkwmem, ?_⟩
    have hkne : kw ≠ "" :=
      extract_keywords_mem_ne_empty _ (pyStrip_idem c.text) hne kw hkwmem
    have hlne : pyLower kw ≠ "" := fun hl => hkne ((pyLower_eq_empty_iff kw).mp hl)
    rcases hkwsub with hsub | hsub <;> simp [hlne, hsub]
  have hcne : contents.isEmpty = false := by
    cases contents with
    | nil => simp at hc
    | cons x xs => rfl
  unfold score_contents
  rw [if_neg (by simp [hcne])]
  rw [foldl_set_getElem?_of_ne]
  · rw [List.getElem?_map, hc]
    simp only [Option.map_some']
    rw [initialScore, if_neg hne, if_pos hhit]
  · intro u hu hui
    have h1 := (List.of_mem_zip hu).1
    have h2 := mem_fallback_candidates _ _ _ _ h1
    rw [hui, hc] at h2
    have hceq : u.1.2 = c := by
      have := h2.1
      exact (Option.some.injEq _ _).mp this.symm
    rw [hceq] at h2
    rw [h2.2.2] at hhit
    exact Bool.false_ne_true hhit

/-- C2 witness: the spec's example — phrase `财政,补贴`, title
`财政部发布新政策` — scores exactly 1 for a constant-zero similarity. -/
theorem score_contents_exact_match_witness :
    pyStrip (WatchContent.mk 1 "财政,补贴").text ≠ ""
    ∧ (score_contents (fun _ cands => cands.map fun _ => 0)
        (some "财政部发布新政策") (some "与补贴相关的通知")
        [WatchContent.mk 1 "财政,补贴"])[0]?
      = some (WatchContent.mk 1 "财政,补贴", 1) :=
  ⟨by decide,
    score_contents_exact_match (fun _ cands => cands.map fun _ => 0)
      (some "财政部发布新政策") (some "与补贴相关的通知")
      [WatchContent.mk 1 "财政,补贴"] 0 (WatchContent.mk 1 "财政,补贴") rfl
      (by decide) ⟨"财政", by decide, Or.inl (by decide)⟩⟩

/-- C10: `score_contents` returns one pair per input phrase, carrying the
input phrases in input order; a phrase whose text is empty or
whitespace-only is paired with score 0 and its index is never among the
similarity-fallback candidates. -/
theorem score_contents_shape (sim : String → List String → List Rat)
    (article_title article_summary : Option String)
    (contents : List WatchContent) :
    ((score_contents sim article_title article_summary contents).map
        Prod.fst = contents)
    ∧ (∀ i c, contents[i]? = some c → pyStrip c.text = "" →
        (score_contents sim article_title article_summary contents)[i]?
            = some (c, 0)
        ∧ ∀ p ∈ fallback_candidates (pyLower (article_title.getD ""))
            (pyLower (article_summary.getD "")) contents, p.1 ≠ i) := by
  constructor
  · cases hc : contents.isEmpty with
    | true =>
        rw [score_contents, if_pos (by simp [hc])]
        rw [List.isEmpty_iff] at hc
        rw [hc]
        rfl
    | false =>
        rw [score_contents, if_neg (by simp [hc])]
        apply foldl_set_map_fst
        · rw [List.map_map]
          exact List.map_id contents
        · intro u hu
          exact (mem_fallback_candidates _ _ _ _ (List.of_mem_zip hu).1).1
  · intro i c hc hstrip
    have hnotfb : ∀ p ∈ fallback_candidates (pyLower (article_title.getD ""))
        (pyLower (article_summary.getD "")) contents, p.1 ≠ i := by
      intro p hp hpi
      have h2 := mem_fallback_candidates _ _ _ _ hp
      rw [hpi, hc] at h2
      have hceq : p.2 = c := (Option.some.injEq _ _).mp h2.1.symm
      rw [hceq] at h2
      exact h2.2.1 hstrip
    refine ⟨?_, hnotfb⟩
    have hcne : contents.isEmpty = false := by
      cases contents with
      | nil => simp at hc
      | cons x xs => rfl
    rw [score_contents, if_neg (by simp [hcne])]
    rw [foldl_set_getElem?_of_ne]
    · rw [List.getElem?_map, hc]
      simp only [Option.map_some']
      rw [initialScore, if_pos hstrip]
    · intro u hu
      exact hnotfb u.1 (List.of_mem_zip hu).1

/-- C10 witness: a single whitespace-only phrase keeps the input order,
scores 0, and is not a fallback candidate. -/
theorem score_contents_shape_witness :
    ((score_contents (fun _ cands => cands.map fun _ => 0) none none
        [WatchContent.mk 7 " "]).map Prod.fst = [WatchContent.mk 7 " "])
    ∧ ((score_contents (fun _ cands => cands.map fun _ => 0) none none
          [WatchContent.mk 7 " "])[0]? = some (WatchContent.mk 7 " ", 0)
        ∧ ∀ p ∈ fallback_candidates (pyLower ((none : Option String).getD ""))
            (pyLower ((none : Option String).getD "")) [WatchContent.mk 7 " "],
          p.1 ≠ 0) :=
  ⟨(score_contents_shape (fun _ cands => cands.map fun _ => 0) none none
      [WatchContent.mk 7 " "]).1,
    (score_contents_shape (fun _ cands => cands.map fun _ => 0) none none
      [WatchContent.mk 7 " "]).2 0 (WatchContent.mk 7 " ") rfl (by decide)⟩

/-- C4: in single-page mode with a prior snapshot whose stored main text is
the flattened body text of the old main HTML, the change check reports
changed exactly when the old and new flattened body texts differ —
independent of how the raw HTML differs. -/
theorem single_page_change_detection (ebt : String → String)
    (old_html new_html : String) :
    single_page_changed ebt (some (ebt old_html)) (some old_html)
        (ebt new_html)
      = (ebt old_html != ebt new_html) := by
  unfold single_page_changed
  cases h : isNonEmptyText (some (ebt old_html)) <;> simp [h]

/-- C9 amended: with no prior snapshot, the single-page change check
compares the empty string with the current body text, so it reports changed
exactly when the newly fetched page's flattened body text is non-empty. -/
theorem single_page_first_run (ebt : String → String)
    (current_main_text : String) :
    single_page_changed ebt none none current_main_text
      = (current_main_text != "") := by
  unfold single_page_changed
  simp [isNonEmptyText, bne, BEq.comm]

/-- C9 counterexample: with no prior snapshot and a newly fetched page whose
flattened body text is empty, the change check reports no change, refuting
"changed is always true on the first run". -/
theorem single_page_first_run_counterexample :
    single_page_changed (fun s => s) none none "" = false := by
  rfl

theorem parse_serialized_subpage (ebt st : String → String)
    (e : SubpageEntry) (t : String) (ht : e.title = some t)
    (hts : pyStrip t = t) (htne : t ≠ "") :
    parseListItem ebt st (serializeSubpage ebt e)
      = some { url := e.url, html := e.html, title := e.title,
               text := parsedSubpageText ebt e } := by
  have hbt : isNonEmptyText e.title = true := by
    rw [ht]
    simp [isNonEmptyText, hts, htne]
  have htitle : pyStrip (e.title.getD "") = t := by
    rw [ht]
    exact hts
  have hbt2 : isNonEmptyText (some t) = true := by
    simp [isNonEmptyText, hts, htne]
  by_cases hn : (match e.text with | some x => pyStrip x | none => "") = ""
  · by_cases he : ebt e.html = ""
    · simp [serializeSubpage, parseListItem, addEntry, parsedSubpageText,
        Json.getKey, Json.asStr, List.lookup, hbt, hbt2, htitle, hn, he, hts,
        htne, ht]
    · simp [serializeSubpage, parseListItem, addEntry, parsedSubpageText,
        Json.getKey, Json.asStr, List.lookup, hbt, hbt2, htitle, hn, he, hts,
        htne, ht]
  · simp [serializeSubpage, parseListItem, addEntry, parsedSubpageText,
      Json.getKey, Json.asStr, List.lookup, hbt, hbt2, htitle, hn, hts, htne, ht]

theorem parseSubpages_roundtrip (ebt st : String → String)
    (subs : List SubpageEntry)
    (hsub : ∀ e ∈ subs, ∃ t, e.title = some t ∧ pyStrip t = t ∧ t ≠ "") :
    parseSubpages ebt st (Json.arr (subs.map (serializeSubpage ebt)))
      = subs.map (fun e =>
          { url := e.url, html := e.html, title := e.title,
            text := parsedSubpageText ebt e }) := by
  induction subs with
  | nil => rfl
  | cons e es ih =>
      obtain ⟨t, ht, hts, htne⟩ := hsub e (List.mem_cons_self e es)
      have hh := parse_serialized_subpage ebt st e t ht hts htne
      have htl := ih (fun x hx => hsub x (List.mem_cons_of_mem e hx))
      simp only [parseSubpages] at htl ⊢
      simp only [List.map_cons, List.filterMap_cons, hh]
      rw [htl]

/-- C6 amended: `parse_snapshot` of a built snapshot returns the input main
HTML, the input main title (when it is non-empty and whitespace-stripped),
and one entry per input subpage carrying the input `url`, `html` and
`title` (when each subpage title is non-empty and stripped); the entry and
main `text` fields are reconstructed, not round-tripped. -/
theorem snapshot_roundtrip (ebt summarizeTitle : String → String)
    (rawString main_html : String) (subpages : List SubpageEntry)
    (main_title : String) (hmt : pyStrip main_title = main_title)
    (hmtne : main_title ≠ "")
    (hsub : ∀ e ∈ subpages, ∃ t, e.title = some t ∧ pyStrip t = t ∧ t ≠ "") :
    parse_snapshot ebt summarizeTitle
        (StoredSnapshot.json rawString
          (build_snapshot ebt main_html subpages (some main_title)))
      = (some main_html,
         subpages.map (fun e =>
           { url := e.url, html := e.html, title := e.title,
             text := parsedSubpageText ebt e }),
         some main_title, some (ebt main_html)) := by
  have hbt : isNonEmptyText (some main_title) = true := by
    simp [isNonEmptyText, hmt, hmtne]
  have hsp := parseSubpages_roundtrip ebt summarizeTitle subpages hsub
  simp [parse_snapshot, build_snapshot, Json.hasKey, Json.getKey,
    Json.asStr, List.lookup, hbt, hmt, hmtne, hsp]

/-- C6 counterexample: a main title with surrounding whitespace does not
round-trip — `build_snapshot` strips it, so `parse_snapshot` returns the
stripped title, refuting "a main title equal to the input title" for every
title. -/
theorem snapshot_roundtrip_counterexample :
    (parse_snapshot (fun s => s) (fun s => s)
        (StoredSnapshot.json "payload"
          (build_snapshot (fun s => s) "x" [] (some " t ")))).2.2.1
      ≠ some " t " := by
  decide

/-- C6 witness: a concrete snapshot with one subpage whose title is stripped
and non-empty round-trips its main HTML, main title and subpage fields. -/
theorem snapshot_roundtrip_witness :
    parse_snapshot (fun s => s) (fun s => s)
        (StoredSnapshot.json "payload"
          (build_snapshot (fun s => s) "A"
            [{ url := "u", html := "h", title := some "T", text := none }]
            (some "T2")))
      = (some "A",
         [{ url := "u", html := "h", title := some "T", text := none }].map
           (fun e =>
             { url := e.url, html := e.html, title := e.title,
               text := parsedSubpageText (fun s => s) e }),
         some "T2", some "A") :=
  snapshot_roundtrip (fun s => s) (fun s => s) "payload" "A"
    [{ url := "u", html := "h", title := some "T", text := none }] "T2"
    (by decide) (by decide)
    (by
      intro e he
      rw [List.mem_singleton] at he
      subst he
      exact ⟨"T", rfl, by decide, by decide⟩)

theorem find?_map_update {α : Type} (key : α → Nat) (l : List α) (i : Nat)
    (F : α → α) (hF : ∀ x, key (F x) = key x) (x0 : α)
    (h : l.find? (fun x => key x == i) = some x0) :
    (l.map fun x => if key x = i then F x else x).find?
        (fun x => key x == i) = some (F x0) := by
  induction l with
  | nil => simp at h
  | cons a as ih =>
      cases ha : (key a == i) with
      | true =>
          have hai : key a = i := by simpa using ha
          have hFa : (key (F a) == i) = true := by simp [hF, hai]
          simp only [List.find?, ha, Option.some.injEq] at h
          rw [List.map_cons, if_pos hai]
          simp only [List.find?, hFa]
          rw [h]
      | false =>
          have hai : ¬ key a = i := by simpa using ha
          simp only [List.find?, ha] at h
          rw [List.map_cons, if_neg hai]
          simp only [List.find?, ha]
          exact ih h

theorem runTaskFailureTail_eq (db : Db) (taskId logId1 : Nat)
    (excText : String) (t0 : TaskRec) (l0 : LogRec)
    (htask : db.getTask taskId = some t0)
    (hlog : db.getLog logId1 = some l0) :
    runTaskFailureTail ⟨db, db⟩ taskId logId1 excText
      = (⟨{ logs := db.logs.map fun l =>
              if l.id = logId1 then
                { l with status := "failed", finished := true,
                         message := some excText }
              else l,
            tasks := db.tasks.map fun t =>
              if t.id = taskId then
                { t with lastStatus := some "failed", lastRunSet := true }
              else t,
            details := (db.details
                ++ [⟨logId1, "任务执行失败，已回滚未完成操作", "error"⟩])
              ++ [⟨logId1, "错误信息：" ++ excText, "error"⟩],
            nextLogId := db.nextLogId },
          { logs := db.logs.map fun l =>
              if l.id = logId1 then
                { l with status := "failed", finished := true,
                         message := some excText }
              else l,
            tasks := db.tasks.map fun t =>
              if t.id = taskId then
                { t with lastStatus := some "failed", lastRunSet := true }
              else t,
            details := (db.details
                ++ [⟨logId1, "任务执行失败，已回滚未完成操作", "error"⟩])
              ++ [⟨logId1, "错误信息：" ++ excText, "error"⟩],
            nextLogId := db.nextLogId }⟩ : Sess) := by
  have htask2 : (Db.getTask
      { db with details := (db.details
          ++ [⟨logId1, "任务执行失败，已回滚未完成操作", "error"⟩])
        ++ [⟨logId1, "错误信息：" ++ excText, "error"⟩] } taskId) = some t0 :=
    htask
  have hlog2 : (Db.getLog
      { logs := db.logs,
        tasks := db.tasks.map fun t =>
          if t.id = taskId then
            { t with lastStatus := some "failed", lastRunSet := true }
          else t,
        details := (db.details
            ++ [⟨logId1, "任务执行失败，已回滚未完成操作", "error"⟩])
          ++ [⟨logId1, "错误信息：" ++ excText, "error"⟩],
        nextLogId := db.nextLogId } logId1) = some l0 :=
    hlog
  unfold runTaskFailureTail Sess.addDetail Sess.commit
  rw [show (⟨db, db⟩ : Sess).view = db from rfl]
  simp only [Db.updateTask, Db.updateLog, htask2, hlog2]

/-- C3: for every pre-state, task id, optional established log id and
exception text, the exception handler of `run_task` (i) ignores the
session's uncommitted view (the rollback), (ii) leaves nothing uncommitted,
(iii) leaves the run's crawl log with terminal status `failed`, a finish
timestamp and the exception text as message — so no log it owns stays
`running` — with the exception text recorded as the final detail entry, and
(iv) marks the monitor task `failed` with a fresh last-run timestamp. -/
theorem run_task_failure_handler_spec (committed pending : Db)
    (taskId : Nat) (logEntryId : Option Nat) (excText : String)
    (t0 : TaskRec)
    (hfresh : ∀ l ∈ committed.logs, l.id < committed.nextLogId)
    (htask : committed.getTask taskId = some t0)
    (hlog : ∀ i, logEntryId = some i → committed.getLog i ≠ none) :
    (run_task_failure_handler ⟨committed, pending⟩ taskId logEntryId excText
        = run_task_failure_handler ⟨committed, committed⟩ taskId logEntryId
            excText)
    ∧ (run_task_failure_handler ⟨committed, pending⟩ taskId logEntryId
          excText).view
        = (run_task_failure_handler ⟨committed, pending⟩ taskId logEntryId
            excText).committed
    ∧ (∃ lid l,
        (run_task_failure_handler ⟨committed, pending⟩ taskId logEntryId
            excText).committed.getLog lid = some l
        ∧ l.status = "failed" ∧ l.finished = true
        ∧ l.message = some excText
        ∧ (run_task_failure_handler ⟨committed, pending⟩ taskId logEntryId
              excText).committed.details.getLast?
            = some ⟨lid, "错误信息：" ++ excText, "error"⟩)
    ∧ (∃ t,
        (run_task_failure_handler ⟨committed, pending⟩ taskId logEntryId
            excText).committed.getTask taskId = some t
        ∧ t.lastStatus = some "failed" ∧ t.lastRunSet = true) := by
  refine ⟨rfl, ?_⟩
  cases logEntryId with
  | some i =>
      obtain ⟨l0, hl0⟩ :=
        Option.ne_none_iff_exists'.mp (hlog i rfl)
      have heq : run_task_failure_handler ⟨committed, pending⟩ taskId
          (some i) excText = runTaskFailureTail ⟨committed, committed⟩
            taskId i excText := rfl
      rw [heq, runTaskFailureTail_eq committed taskId i excText t0 l0 htask
        hl0]
      refine ⟨rfl,
        ⟨i, { l0 with status := "failed", finished := true,
                      message := some excText }, ?_, rfl, rfl, rfl, ?_⟩,
        ⟨{ t0 with lastStatus := some "failed", lastRunSet := true },
          ?_, rfl, rfl⟩⟩
      · exact find?_map_update LogRec.id committed.logs i
          (fun l => { l with status := "failed", finished := true,
                             message := some excText })
          (fun x => rfl) l0 hl0
      · exact List.getLast?_concat _
      · exact find?_map_update TaskRec.id committed.tasks taskId
          (fun t => { t with lastStatus := some "failed",
                             lastRunSet := true })
          (fun x => rfl) t0 htask
  | none =>
      have heq : run_task_failure_handler ⟨committed, pending⟩ taskId none
          excText
          = runTaskFailureTail
              ⟨{ committed with
                   logs := committed.logs
                     ++ [{ id := committed.nextLogId, taskId := taskId }],
                   nextLogId := committed.nextLogId + 1 },
               { committed with
                   logs := committed.logs
                     ++ [{ id := committed.nextLogId, taskId := taskId }],
                   nextLogId := committed.nextLogId + 1 }⟩
              taskId committed.nextLogId excText := rfl
      have hlognew : List.find? (fun l => l.id == committed.nextLogId)
          (committed.logs ++ [{ id := committed.nextLogId, taskId := taskId }])
          = some { id := committed.nextLogId, taskId := taskId } := by
        rw [List.find?_append]
        have hnone : committed.logs.find?
            (fun l => l.id == committed.nextLogId) = none := by
          rw [List.find?_eq_none]
          intro x hx
          simp only [beq_iff_eq]
          exact Nat.ne_of_lt (hfresh x hx)
        rw [hnone]
        simp [List.find?]
      rw [heq, runTaskFailureTail_eq
        { committed with
            logs := committed.logs
              ++ [{ id := committed.nextLogId, taskId := taskId }],
            nextLogId := committed.nextLogId + 1 }
        taskId committed.nextLogId excText t0
        { id := committed.nextLogId, taskId := taskId } htask hlognew]
      refine ⟨rfl,
        ⟨committed.nextLogId,
          { id := committed.nextLogId, taskId := taskId,
            status := "failed", message := some excText, finished := true },
          ?_, rfl, rfl, rfl, ?_⟩,
        ⟨{ t0 with lastStatus := some "failed", lastRunSet := true },
          ?_, rfl, rfl⟩⟩
      · exact find?_map_update LogRec.id
          (committed.logs ++ [{ id := committed.nextLogId, taskId := taskId }])
          committed.nextLogId
          (fun l => { l with status := "failed", finished := true,
                             message := some excText })
          (fun x => rfl) { id := committed.nextLogId, taskId := taskId }
          hlognew
      · exact List.getLast?_concat _
      · exact find?_map_update TaskRec.id committed.tasks taskId
          (fun t => { t with lastStatus := some "failed",
                             lastRunSet := true })
          (fun x => rfl) t0 htask

/-- C3 witness: a concrete session with one committed running log (id 1)
of task 9 and a dirty uncommitted view; the handler leaves a committed
failed, finished log carrying the exception text, with the exception
detail as the final detail entry. -/
theorem run_task_failure_handler_spec_witness :
    ∃ lid l,
      (run_task_failure_handler
          ⟨{ logs := [{ id := 1, taskId := 9 }],
             tasks := [{ id := 9 }], details := [], nextLogId := 2 },
            { logs := [{ id := 1, taskId := 9, status := "dirty" }],
              tasks := [{ id := 9 }], details := [], nextLogId := 2 }⟩
          9 (some 1) "boom").committed.getLog lid = some l
      ∧ l.status = "failed" ∧ l.finished = true
      ∧ l.message = some "boom"
      ∧ (run_task_failure_handler
            ⟨{ logs := [{ id := 1, taskId := 9 }],
               tasks := [{ id := 9 }], details := [], nextLogId := 2 },
              { logs := [{ id := 1, taskId := 9, status := "dirty" }],
                tasks := [{ id := 9 }], details := [], nextLogId := 2 }⟩
            9 (some 1) "boom").committed.details.getLast?
          = some ⟨lid, "错误信息：" ++ "boom", "error"⟩ :=
  (run_task_failure_handler_spec
    { logs := [{ id := 1, taskId := 9 }],
      tasks := [{ id := 9 }], details := [], nextLogId := 2 }
    { logs := [{ id := 1, taskId := 9, status := "dirty" }],
      tasks := [{ id := 9 }], details := [], nextLogId := 2 }
    9 (some 1) "boom" { id := 9 } (by decide) (by decide)
    (by intro i hi; cases hi; decide)).2.2.1

theorem profile_accept_language_mem (p : RequestProfile)
    (hp : p ∈ REQUEST_PROFILES) : p.accept_language ∈ ACCEPT_LANGUAGES := by
  unfold REQUEST_PROFILES build_profiles at hp
  obtain ⟨q, hq, hpe⟩ := List.mem_map.mp hp
  subst hpe
  show ACCEPT_LANGUAGES.getD (q.1 % 10) "" ∈ ACCEPT_LANGUAGES
  have hlt : q.1 % 10 < ACCEPT_LANGUAGES.length := by
    have h10 : q.1 % 10 < 10 := Nat.mod_lt _ (by decide)
    simpa [ACCEPT_LANGUAGES] using h10
  rw [List.getD_eq_getElem _ _ hlt]
  exact List.getElem_mem hlt

/-- C7 counterexample: the request that `_fetch_html_with_requests` issues
for `http://example.com` carries no proxy and its headers are the fixed
defaults, which equal no profile's built headers (every profile's
Accept-Language comes from the ten-entry pool, which does not contain the
default value) — refuting "headers drawn from the profile pool and routed
through the round-robin proxy". -/
theorem fetch_request_counterexample :
    (fetch_html_with_requests_request "http://example.com").proxy = none
    ∧ (fetch_html_with_requests_request "http://example.com").headers
        ∉ REQUEST_PROFILES.map
            (fun p => p.build_headers "http://example.com"
              ⟨"http", "example.com", "example.com", ""⟩) := by
  refine ⟨rfl, ?_⟩
  intro hmem
  obtain ⟨p, hp, heq⟩ := List.mem_map.mp hmem
  have hal : p.accept_language
      = DEFAULT_REQUEST_HEADERS.acceptLanguage :=
    congrArg Headers.acceptLanguage heq
  have hmem2 := profile_accept_language_mem p hp
  rw [hal] at hmem2
  revert hmem2
  decide

/-- C7 amended: the plain-HTTP path issues every request with the fixed
`DEFAULT_REQUEST_HEADERS` and no proxy; separately, the profile pool holds
at least 100 profiles and `get_profile_headers` draws its headers from the
pool, and the proxy service yields the proxy under its cursor and advances
the cursor round-robin — but the fetch path consults neither. -/
theorem fetch_request_amended :
    (∀ url, fetch_html_with_requests_request url
        = { url := url, headers := DEFAULT_REQUEST_HEADERS, proxy := none })
    ∧ 100 ≤ REQUEST_PROFILES.length
    ∧ (∀ choice url parts, ∃ p ∈ REQUEST_PROFILES,
        get_profile_headers choice url parts = p.build_headers url parts)
    ∧ (∀ st : ProxyState, st.proxies ≠ [] →
        (get_next_proxy st).1 = some (st.proxies.getD st.index [])
        ∧ (get_next_proxy st).2.index = (st.index + 1) % st.proxies.length
        ∧ (get_next_proxy st).2.index < st.proxies.length) := by
  have hlen : REQUEST_PROFILES.length = 100 := by decide
  refine ⟨fun url => rfl, by rw [hlen], ?_, ?_⟩
  · intro choice url parts
    have hlt : choice % REQUEST_PROFILES.length < REQUEST_PROFILES.length := by
      rw [hlen]
      exact Nat.mod_lt _ (by decide)
    refine ⟨REQUEST_PROFILES.getD (choice % REQUEST_PROFILES.length)
      ⟨"", [], "", ""⟩, ?_, rfl⟩
    rw [List.getD_eq_getElem _ _ hlt]
    exact List.getElem_mem hlt
  · intro st hne
    have hemp : st.proxies.isEmpty = false := by
      cases h : st.proxies with
      | nil => exact absurd h hne
      | cons a as => rfl
    have hpos : 0 < st.proxies.length := by
      cases h : st.proxies with
      | nil => exact absurd h hne
      | cons a as => simp [h]
    unfold get_next_proxy
    rw [if_neg (by simp [hemp])]
    exact ⟨rfl, rfl, Nat.mod_lt _ hpos⟩

/-- C7 amended witness: a two-proxy pool with the cursor at 1 yields the
second proxy and wraps the cursor back to 0. -/
theorem fetch_request_amended_witness :
    (get_next_proxy ⟨[[("http", "hp")], [("http", "hq")]], 1⟩).1
        = some [("http", "hq")]
    ∧ (get_next_proxy ⟨[[("http", "hp")], [("http", "hq")]], 1⟩).2.index
        = (1 + 1) % ([[("http", "hp")], [("http", "hq")]] :
            List (List (String × String))).length
    ∧ (get_next_proxy ⟨[[("http", "hp")], [("http", "hq")]], 1⟩).2.index
        < ([[("http", "hp")], [("http", "hq")]] :
            List (List (String × String))).length :=
  fetch_request_amended.2.2.2 ⟨[[("http", "hp")], [("http", "hq")]], 1⟩
    (by decide)

end PolicyMonitor
